import Mathlib

/-! Shallow embedding of `supabase/functions/telegram-bot/index.ts`.

Each bot handler is modelled as a pure function from the inbound context and
the outcomes of the external collaborators (the message-history store and the
completion provider, supplied as oracles) to the ordered list of observable
events the handler performs (replies sent, store reads, store writes, provider
calls, console logging), paired with an `Except` value recording whether the
handler finished normally or let an error escape its boundary. Store
mutations (`historyWrite`, `historyClear`) are recorded only when the
underlying store call succeeds; reads and provider calls are recorded when
attempted. -/

namespace TelegramBot

/-- Speaker tag on a stored message (the `role` field of `Message`). -/
inductive Role
  | system
  | user
  | assistant
  deriving DecidableEq

/-- A role-tagged chat message (the `Message` type of the data model). -/
structure Message where
  role : Role
  content : String
  deriving DecidableEq

def Role.toStr : Role → String
  | .system => "system"
  | .user => "user"
  | .assistant => "assistant"

/-- Modelled from the spec: `formatMessageHistory` lives in `utils.ts`, which
is absent from the repository snapshot. Spec section 4.3 defines it as the
concatenation of each message as "<role>: <content>\n" in sequence order,
with empty input giving the empty string. -/
def formatMessageHistory (ms : List Message) : String :=
  ms.foldr (fun m acc => m.role.toStr ++ ": " ++ m.content ++ "\n" ++ acc) ""

/-- Observable actions a handler performs, in order. The store key is the
value the code passes as user id (`ctx?.from?.id`, possibly absent). -/
inductive Event
  | reply (text : String)
  | historyRead (key : Option Nat)
  | providerCall (msgs : List Message)
  | historyWrite (key : Option Nat) (msgs : List Message)
  | historyClear (key : Option Nat)
  | creditsQuery
  | log
  deriving DecidableEq

def noMessageText : String := "No message"

def noUserFoundText : String := "No User Found"

def notAllowedText : String := "Sorry, you are not allowed. This is personal AI Bot"

def genericErrorText : String := "Sorry an error has occured, please try again later."

def clearedText : String := "Your dialogue has been cleared"

def startText : String := "Welcome! I will be your personal AI Assistant."

def historyEmptyText : String := "History is empty"

/-- The advisory sent when the token estimate exceeds the threshold
(index.ts lines 135-142); `Math.floor` is the identity on a natural. -/
def warnText (n : Nat) : String :=
  "Just a heads up, you\x27ve used around *" ++ toString n ++
    "* tokens for this query. To help you manage your token usage, we recommend running the */clear* command every so oftens usage."

/-- The `/credits` reply body (index.ts line 77). -/
def creditsText (used avail : String) : String :=
  "Here is your total <strong>OpenAI</strong> usage amount:\nUsed balance: <strong>" ++
    used ++ "</strong>\nAvailable balance: <strong>" ++ avail ++ "</strong>"

/-- JavaScript truthiness of a `string | undefined` value: falsy exactly when
absent or the empty string. -/
def jsFalsy : Option String → Bool
  | none => true
  | some s => s == ""

/-- JavaScript `x || ""` on a `string | undefined` value. -/
def orEmptyStr : Option String → String
  | none => ""
  | some s => s

/-- The `bot.on("message")` handler (index.ts lines 121-163). The whole body
sits in one try/catch whose catch logs and sends a generic apology, so the
`Except` component is always `ok`. The "No message" reply for a text-less
update is fired without a `return`, so processing continues; the user message
content is `receivedMessage || ""`. The assistant message appends exactly one
newline to the provider response; the outgoing reply is the raw response. -/
def onMessage (est : String → Nat) (readRes : Except Unit (List Message))
    (aiRes : List Message → Except Unit String) (writeRes : Except Unit Unit)
    (uid : Option Nat) (text : Option String) : List Event × Except Unit Unit :=
  match readRes with
  | Except.error _ =>
      ((if jsFalsy text then [Event.reply noMessageText] else []) ++
        [Event.historyRead uid, Event.log, Event.reply genericErrorText],
       Except.ok ())
  | Except.ok history =>
      match aiRes (history ++ [⟨Role.user, orEmptyStr text⟩]) with
      | Except.error _ =>
          ((if jsFalsy text then [Event.reply noMessageText] else []) ++
            [Event.historyRead uid] ++
            (if 2000 < est (formatMessageHistory history)
              then [Event.reply (warnText (est (formatMessageHistory history)))]
              else []) ++
            [Event.providerCall (history ++ [⟨Role.user, orEmptyStr text⟩]),
             Event.log, Event.reply genericErrorText],
           Except.ok ())
      | Except.ok ai =>
          match writeRes with
          | Except.error _ =>
              ((if jsFalsy text then [Event.reply noMessageText] else []) ++
                [Event.historyRead uid] ++
                (if 2000 < est (formatMessageHistory history)
                  then [Event.reply (warnText (est (formatMessageHistory history)))]
                  else []) ++
                [Event.providerCall (history ++ [⟨Role.user, orEmptyStr text⟩]),
                 Event.log, Event.reply genericErrorText],
               Except.ok ())
          | Except.ok _ =>
              ((if jsFalsy text then [Event.reply noMessageText] else []) ++
                [Event.historyRead uid] ++
                (if 2000 < est (formatMessageHistory history)
                  then [Event.reply (warnText (est (formatMessageHistory history)))]
                  else []) ++
                [Event.providerCall (history ++ [⟨Role.user, orEmptyStr text⟩]),
                 Event.historyWrite uid (history ++ [⟨Role.user, orEmptyStr text⟩,
                   ⟨Role.assistant, ai ++ "\n"⟩]),
                 Event.reply ai],
               Except.ok ())

/-- The `/history` command handler (index.ts lines 87-103). The store read is
not guarded by any try/catch: a read failure escapes the handler, recorded in
the `Except` component. -/
def onHistory (est : String → Nat) (userId : Option Nat)
    (readRes : Except Unit (List Message)) : List Event × Except Unit Unit :=
  match userId with
  | none => ([Event.reply noUserFoundText], Except.ok ())
  | some uid =>
      match readRes with
      | Except.error e => ([Event.historyRead (some uid)], Except.error e)
      | Except.ok history =>
          ([Event.historyRead (some uid), Event.log,
            Event.reply
              (if formatMessageHistory (history.filter
                    (fun m => !(m.role == Role.system))) == ""
                then historyEmptyText
                else formatMessageHistory (history.filter
                      (fun m => !(m.role == Role.system))) ++
                  "Approximate token usage for your query: " ++
                  toString (est ((formatMessageHistory history).replace ("\n") "")))],
           Except.ok ())

/-- The `/clear` command handler (index.ts lines 109-119): a store-clear
failure escapes the handler uncaught. -/
def onClear (userId : Option Nat) (clearRes : Except Unit Unit) :
    List Event × Except Unit Unit :=
  match userId with
  | none => ([Event.reply noUserFoundText], Except.ok ())
  | some uid =>
      match clearRes with
      | Except.error e => ([], Except.error e)
      | Except.ok _ =>
          ([Event.historyClear (some uid), Event.reply clearedText], Except.ok ())

/-- The `/credits` command handler (index.ts lines 73-83): only the outgoing
reply has a `.catch`; a failing `getCredits` escapes the handler. The pair
holds (total_available, total_used) as rendered in the reply. -/
def onCredits (creditsRes : Except Unit (String × String)) :
    List Event × Except Unit Unit :=
  match creditsRes with
  | Except.error e => ([Event.creditsQuery], Except.error e)
  | Except.ok p =>
      ([Event.creditsQuery, Event.reply (creditsText p.2 p.1)], Except.ok ())

/-- The kind of inbound update, selecting which registered handler runs. -/
inductive Incoming
  | cmdStart
  | cmdPing
  | cmdCredits
  | cmdHistory
  | cmdClear
  | plainMessage
  deriving DecidableEq

/-- The per-update context the handlers read: `ctx.from?.username`,
`ctx.from?.id` and `ctx.update.message.text`. -/
structure Ctx where
  username : Option String
  userId : Option Nat
  text : Option String

/-- Outcomes of the external collaborators for one update, as oracles. -/
structure Collab where
  est : String → Nat
  readRes : Except Unit (List Message)
  aiRes : List Message → Except Unit String
  writeRes : Except Unit Unit
  clearRes : Except Unit Unit
  creditsRes : Except Unit (String × String)

/-- The authorization middleware predicate (index.ts line 59):
`users.some((user) => ctx.from?.username === user)`; strict equality against
an absent username is false for every allow-list entry. -/
def isOwner (users : List String) (username : Option String) : Bool :=
  users.any (fun u => username == some u)

/-- Modelled from the spec: `getUserId` lives in the absent `utils.ts`; spec
section 4.4 step 1 says it extracts the user id from the inbound request. -/
def getUserId (ctx : Ctx) : Option Nat := ctx.userId

/-- One update through the bot: the middleware (index.ts lines 57-67) either
replies with the denial and stops (it never calls `next`), or forwards to the
handler registered for the update kind. -/
def botHandle (users : List String) (c : Collab) (now : String)
    (kind : Incoming) (ctx : Ctx) : List Event × Except Unit Unit :=
  if isOwner users ctx.username then
    match kind with
    | Incoming.cmdStart => ([Event.reply startText], Except.ok ())
    | Incoming.cmdPing => ([Event.reply ("Pong! " ++ now)], Except.ok ())
    | Incoming.cmdCredits => onCredits c.creditsRes
    | Incoming.cmdHistory => onHistory c.est (getUserId ctx) c.readRes
    | Incoming.cmdClear => onClear (getUserId ctx) c.clearRes
    | Incoming.plainMessage =>
        onMessage c.est c.readRes c.aiRes c.writeRes ctx.userId ctx.text
  else ([Event.reply notAllowedText], Except.ok ())

/-- JavaScript strict equality between `url.searchParams.get("secret")` (a
string or null) and `Deno.env.get("FUNCTION_SECRET")` (a string or
undefined), as on index.ts line 190: true exactly when both sides are
present, equal strings. -/
def secretAllowed (secretParam : Option String) (envSecret : Option String) :
    Bool :=
  match secretParam, envSecret with
  | some p, some s => p == s
  | _, _ => false

/-- Result of one HTTP request through `serve` (index.ts lines 186-200). -/
inductive ServeOutcome
  | rejected405
  | handled (events : List Event) (result : Except Unit Unit)

/-- The `serve` callback: requests whose secret parameter fails the strict
equality check get the status-405 "not allowed" response and never reach
`handleUpdate`; allowed requests run the bot pipeline. -/
def serveRequest (envSecret : Option String) (secretParam : Option String)
    (users : List String) (c : Collab) (now : String) (kind : Incoming)
    (ctx : Ctx) : ServeOutcome :=
  if secretAllowed secretParam envSecret then
    ServeOutcome.handled (botHandle users c now kind ctx).1
      (botHandle users c now kind ctx).2
  else ServeOutcome.rejected405

/-- Process environment at startup. `usersVar` abstracts the `USERS`
variable to the parsed JSON array it holds when set (index.ts line 19 applies
`JSON.parse`, defaulting the raw string to "[]" when the variable is
absent). -/
structure Env where
  usersVar : Option (List String)
  botTokenVar : Option String
  functionSecretVar : Option String

/-- The configuration a successful startup produces. -/
structure Config where
  users : List String
  botToken : String
  deriving DecidableEq

/-- The module-level startup sequence (index.ts lines 19-38): default the
allow-list to empty and the token to the empty string, then throw on a falsy
token, then on an empty allow-list. `FUNCTION_SECRET` is never examined
here; it is only read per-request inside `serve`. -/
def startup (env : Env) : Except String Config :=
  if env.botTokenVar.getD ("") == "" then
    Except.error ("Please specify the Telegram Bot Token.")
  else if (env.usersVar.getD []).length == 0 then
    Except.error ("Please specify the users that have access to the bot.")
  else Except.ok ⟨env.usersVar.getD [], env.botTokenVar.getD ("")⟩

/-- Replay a handler trace against a per-key store (spec section 4.2: `set`
replaces the value for the key, `clear` is `set` to empty); non-mutating
events leave the store unchanged. -/
def applyEvent (store : Option Nat → List Message) :
    Event → Option Nat → List Message
  | Event.historyWrite key msgs => fun k => if k = key then msgs else store k
  | Event.historyClear key => fun k => if k = key then [] else store k
  | _ => store

def runStore (store : Option Nat → List Message) (events : List Event) :
    Option Nat → List Message :=
  events.foldl applyEvent store

/-- Whether an event mutates the store. -/
def Event.mutates : Event → Bool
  | Event.historyWrite _ _ => true
  | Event.historyClear _ => true
  | _ => false

/-- Whether a trace contains any store mutation. -/
def hasWrite (events : List Event) : Bool :=
  events.any (fun e => e.mutates)

theorem runStore_cons (store : Option Nat → List Message) (e : Event)
    (es : List Event) :
    runStore store (e :: es) = runStore (applyEvent store e) es := rfl

theorem applyEvent_of_not_mutates (store : Option Nat → List Message)
    (e : Event) (h : e.mutates = false) : applyEvent store e = store := by
  cases e with
  | historyWrite k m => exact absurd h (by simp [Event.mutates])
  | historyClear k => exact absurd h (by simp [Event.mutates])
  | reply t => rfl
  | historyRead k => rfl
  | providerCall m => rfl
  | creditsQuery => rfl
  | log => rfl

theorem runStore_of_no_mutation (events : List Event)
    (h : ∀ e ∈ events, e.mutates = false) (store : Option Nat → List Message) :
    runStore store events = store := by
  induction events generalizing store with
  | nil => rfl
  | cons e es ih =>
    rw [runStore_cons, applyEvent_of_not_mutates store e (h e (List.mem_cons_self e es))]
    exact ih (fun x hx => h x (List.mem_cons_of_mem e hx)) store

/-- C1: turn atomicity — when the completion-provider call of a conversation
turn fails, the message handler leaves the store untouched (replaying the
trace changes no key and the trace holds no store mutation at all), still
sends the generic error reply, and finishes normally instead of letting the
error escape. -/
theorem C1_turn_atomicity (est : String → Nat) (history : List Message)
    (aiRes : List Message → Except Unit String) (writeRes : Except Unit Unit)
    (uid : Option Nat) (text : Option String)
    (store : Option Nat → List Message)
    (hfail : aiRes (history ++ [⟨Role.user, orEmptyStr text⟩]) = Except.error ()) :
    runStore store (onMessage est (Except.ok history) aiRes writeRes uid text).1 = store ∧
    hasWrite (onMessage est (Except.ok history) aiRes writeRes uid text).1 = false ∧
    Event.reply genericErrorText ∈ (onMessage est (Except.ok history) aiRes writeRes uid text).1 ∧
    (onMessage est (Except.ok history) aiRes writeRes uid text).2 = Except.ok () := by
  have hshape : onMessage est (Except.ok history) aiRes writeRes uid text =
      ((if jsFalsy text then [Event.reply noMessageText] else []) ++
        [Event.historyRead uid] ++
        (if 2000 < est (formatMessageHistory history)
          then [Event.reply (warnText (est (formatMessageHistory history)))]
          else []) ++
        [Event.providerCall (history ++ [⟨Role.user, orEmptyStr text⟩]),
         Event.log, Event.reply genericErrorText],
       Except.ok ()) := by
    simp only [onMessage, hfail]
  rw [hshape]
  have hmut : ∀ e ∈ ((if jsFalsy text then [Event.reply noMessageText] else []) ++
      [Event.historyRead uid] ++
      (if 2000 < est (formatMessageHistory history)
        then [Event.reply (warnText (est (formatMessageHistory history)))]
        else []) ++
      [Event.providerCall (history ++ [⟨Role.user, orEmptyStr text⟩]),
       Event.log, Event.reply genericErrorText]), e.mutates = false := by
    intro e he
    simp only [List.mem_append] at he
    rcases he with ((h1 | h2) | h3) | h4
    · rcases (by split at h1 <;> simp_all : e = Event.reply noMessageText) with rfl
      rfl
    · rcases (by simp_all : e = Event.historyRead uid) with rfl
      rfl
    · rcases (by split at h3 <;> simp_all :
        e = Event.reply (warnText (est (formatMessageHistory history)))) with rfl
      rfl
    · rcases (by simp_all :
        e = Event.providerCall (history ++ [⟨Role.user, orEmptyStr text⟩]) ∨
          e = Event.log ∨ e = Event.reply genericErrorText) with rfl | rfl | rfl <;> rfl
  refine ⟨runStore_of_no_mutation _ hmut store, ?_, ?_, rfl⟩
  · simp only [hasWrite, List.any_eq_false]
    intro e he
    simp [hmut e he]
  · simp

/-- C1 witness: a concrete failed turn with one prior message. -/
theorem C1_turn_atomicity_witness :
    runStore (fun _ => []) (onMessage (fun s => s.length)
        (Except.ok [⟨Role.user, "q"⟩]) (fun _ => Except.error ())
        (Except.ok ()) (some 7) (some ("x"))).1 = (fun _ => []) ∧
    hasWrite (onMessage (fun s => s.length) (Except.ok [⟨Role.user, "q"⟩])
        (fun _ => Except.error ()) (Except.ok ()) (some 7) (some ("x"))).1 = false ∧
    Event.reply genericErrorText ∈ (onMessage (fun s => s.length)
        (Except.ok [⟨Role.user, "q"⟩]) (fun _ => Except.error ())
        (Except.ok ()) (some 7) (some ("x"))).1 ∧
    (onMessage (fun s => s.length) (Except.ok [⟨Role.user, "q"⟩])
        (fun _ => Except.error ()) (Except.ok ()) (some 7) (some ("x"))).2 =
      Except.ok () :=
  C1_turn_atomicity (fun s => s.length) [⟨Role.user, "q"⟩]
    (fun _ => Except.error ()) (Except.ok ()) (some 7) (some ("x"))
    (fun _ => []) rfl

/-- C2: persisted turn shape — on a successful turn the stored history for
the sender's key becomes the prior history followed by exactly one user
message carrying the received text and one assistant message holding the raw
provider response with a single trailing newline, every other key is
untouched, and the last action of the handler is the upstream reply carrying
the raw response without that newline. -/
theorem C2_turn_shape (est : String → Nat) (history : List Message)
    (aiRes : List Message → Except Unit String) (uid : Option Nat)
    (t ai : String) (store : Option Nat → List Message)
    (hai : aiRes (history ++ [⟨Role.user, t⟩]) = Except.ok ai) :
    (onMessage est (Except.ok history) aiRes (Except.ok ()) uid (some t)).1.getLast? =
      some (Event.reply ai) ∧
    runStore store (onMessage est (Except.ok history) aiRes (Except.ok ()) uid (some t)).1 =
      fun k => if k = uid
        then history ++ [⟨Role.user, t⟩, ⟨Role.assistant, ai ++ "\n"⟩]
        else store k := by
  have hshape : onMessage est (Except.ok history) aiRes (Except.ok ()) uid (some t) =
      ((if jsFalsy (some t) then [Event.reply noMessageText] else []) ++
        [Event.historyRead uid] ++
        (if 2000 < est (formatMessageHistory history)
          then [Event.reply (warnText (est (formatMessageHistory history)))]
          else []) ++
        [Event.providerCall (history ++ [⟨Role.user, t⟩]),
         Event.historyWrite uid (history ++ [⟨Role.user, t⟩,
           ⟨Role.assistant, ai ++ "\n"⟩]),
         Event.reply ai],
       Except.ok ()) := by
    simp only [onMessage, orEmptyStr, hai]
  rw [hshape]
  by_cases hw : 2000 < est (formatMessageHistory history) <;>
    cases hb : jsFalsy (some t) <;>
      simp only [hw, hb, if_true, if_false, if_pos, if_neg, ite_true, ite_false,
        Bool.false_eq_true, List.nil_append, List.cons_append, List.append_nil] <;>
      refine ⟨rfl, ?_⟩ <;>
      · funext k
        simp [runStore, applyEvent]

/-- C2 witness: scenario A — empty history, user sends "hello", provider
returns "hi there". -/
theorem C2_turn_shape_witness :
    (onMessage (fun s => s.length) (Except.ok [])
        (fun _ => Except.ok ("hi there")) (Except.ok ()) (some 1)
        (some ("hello"))).1.getLast? = some (Event.reply ("hi there")) ∧
    runStore (fun _ => []) (onMessage (fun s => s.length) (Except.ok [])
        (fun _ => Except.ok ("hi there")) (Except.ok ()) (some 1)
        (some ("hello"))).1 =
      fun k => if k = some 1
        then [⟨Role.user, "hello"⟩, ⟨Role.assistant, "hi there\n"⟩]
        else [] :=
  C2_turn_shape (fun s => s.length) [] (fun _ => Except.ok ("hi there"))
    (some 1) ("hello") ("hi there") (fun _ => []) rfl

/-- C5: warn branch — on a turn whose provider call succeeds, the token
estimate is taken over the formatted history before the new message is
appended, the advisory reply appears in the trace exactly when that estimate
exceeds 2000, and in either case the turn continues: the provider is called
with history plus the new user message, the history is persisted and the
normal completion reply is sent. -/
theorem C5_warn_branch (est : String → Nat) (history : List Message)
    (aiRes : List Message → Except Unit String) (uid : Option Nat)
    (text : Option String) (ai : String)
    (hai : aiRes (history ++ [⟨Role.user, orEmptyStr text⟩]) = Except.ok ai) :
    onMessage est (Except.ok history) aiRes (Except.ok ()) uid text =
      ((if jsFalsy text then [Event.reply noMessageText] else []) ++
        [Event.historyRead uid] ++
        (if 2000 < est (formatMessageHistory history)
          then [Event.reply (warnText (est (formatMessageHistory history)))]
          else []) ++
        [Event.providerCall (history ++ [⟨Role.user, orEmptyStr text⟩]),
         Event.historyWrite uid (history ++ [⟨Role.user, orEmptyStr text⟩,
           ⟨Role.assistant, ai ++ "\n"⟩]),
         Event.reply ai],
       Except.ok ()) := by
  simp only [onMessage, hai]

/-- C5 witness: a constant estimator above the threshold triggers the
advisory and the turn still completes. -/
theorem C5_warn_branch_witness :
    onMessage (fun _ => 2001) (Except.ok []) (fun _ => Except.ok ("ok"))
        (Except.ok ()) (some 1) (some ("hey")) =
      ([Event.historyRead (some 1), Event.reply (warnText 2001),
        Event.providerCall [⟨Role.user, "hey"⟩],
        Event.historyWrite (some 1) [⟨Role.user, "hey"⟩,
          ⟨Role.assistant, "ok\n"⟩],
        Event.reply ("ok")], Except.ok ()) := by
  have h := C5_warn_branch (fun _ => 2001) [] (fun _ => Except.ok ("ok"))
    (some 1) (some ("hey")) ("ok") rfl
  simpa using h

/-- C9: a message without text triggers the "No message" reply but the
handler does not return early: it still reads the history, appends a user
message with empty content, calls the provider with that sequence, persists
the updated history and sends the provider's reply. -/
theorem C9_textless_turn (est : String → Nat) (history : List Message)
    (aiRes : List Message → Except Unit String) (uid : Option Nat)
    (ai : String)
    (hai : aiRes (history ++ [⟨Role.user, ""⟩]) = Except.ok ai) :
    onMessage est (Except.ok history) aiRes (Except.ok ()) uid none =
      ([Event.reply noMessageText, Event.historyRead uid] ++
        (if 2000 < est (formatMessageHistory history)
          then [Event.reply (warnText (est (formatMessageHistory history)))]
          else []) ++
        [Event.providerCall (history ++ [⟨Role.user, ""⟩]),
         Event.historyWrite uid (history ++ [⟨Role.user, ""⟩,
           ⟨Role.assistant, ai ++ "\n"⟩]),
         Event.reply ai],
       Except.ok ()) := by
  simp [onMessage, orEmptyStr, jsFalsy, hai]

/-- C9 witness: a concrete text-less turn on empty history. -/
theorem C9_textless_turn_witness :
    onMessage (fun s => s.length) (Except.ok [])
        (fun _ => Except.ok ("ok")) (Except.ok ()) (some 5) none =
      ([Event.reply noMessageText, Event.historyRead (some 5),
        Event.providerCall [⟨Role.user, ""⟩],
        Event.historyWrite (some 5) [⟨Role.user, ""⟩,
          ⟨Role.assistant, "ok\n"⟩],
        Event.reply ("ok")], Except.ok ()) := by
  have h := C9_textless_turn (fun s => s.length) []
    (fun _ => Except.ok ("ok")) (some 5) ("ok") rfl
  simpa using h

/-- C3 counterexample: on a conversation message with no extractable user id
the handler does not exit early — it performs the history read and the
provider call and never sends the "No User Found" reply. -/
theorem C3_counterexample :
    Event.historyRead none ∈ (onMessage (fun s => s.length) (Except.ok [])
        (fun _ => Except.ok ("ok")) (Except.ok ()) none (some ("hi"))).1 ∧
    Event.providerCall [⟨Role.user, "hi"⟩] ∈ (onMessage (fun s => s.length)
        (Except.ok []) (fun _ => Except.ok ("ok")) (Except.ok ()) none
        (some ("hi"))).1 ∧
    ¬ Event.reply noUserFoundText ∈ (onMessage (fun s => s.length)
        (Except.ok []) (fun _ => Except.ok ("ok")) (Except.ok ()) none
        (some ("hi"))).1 := by
  decide

/-- C3 (amended): the /history and /clear command handlers do exit early with
the "No User Found" reply and no store access when no user id is
extractable, but the conversation-message handler performs no user-id check:
whatever the store returns, it goes on to the history read (and from there to
the rest of the turn). -/
theorem C3_no_user_paths (est : String → Nat)
    (readRes : Except Unit (List Message))
    (aiRes : List Message → Except Unit String)
    (writeRes clearRes : Except Unit Unit) (text : Option String) :
    onHistory est none readRes = ([Event.reply noUserFoundText], Except.ok ()) ∧
    onClear none clearRes = ([Event.reply noUserFoundText], Except.ok ()) ∧
    Event.historyRead none ∈ (onMessage est readRes aiRes writeRes none text).1 := by
  refine ⟨rfl, rfl, ?_⟩
  cases readRes with
  | error e => simp [onMessage]
  | ok history =>
    cases hai : aiRes (history ++ [⟨Role.user, orEmptyStr text⟩]) with
    | error e => simp [onMessage, hai]
    | ok ai => cases writeRes <;> simp [onMessage, hai]

/-- C4 counterexample: a failing getCredits call escapes the /credits handler
uncaught, with no user-visible message at all. -/
theorem C4_counterexample :
    (onCredits (Except.error ())).1 = [Event.creditsQuery] ∧
    (onCredits (Except.error ())).2 = Except.error () :=
  ⟨rfl, rfl⟩

/-- C4 (amended): only the conversation-message handler catches collaborator
failures (its result is always normal); the /credits, /history and /clear
handlers let a store or provider error escape the handler boundary, the
failing /credits path sending no reply at all. -/
theorem C4_error_escape (est : String → Nat) (uid : Nat) :
    (onCredits (Except.error ())).1 = [Event.creditsQuery] ∧
    (onCredits (Except.error ())).2 = Except.error () ∧
    (onHistory est (some uid) (Except.error ())).2 = Except.error () ∧
    (onClear (some uid) (Except.error ())).2 = Except.error () ∧
    ∀ (readRes : Except Unit (List Message))
      (aiRes : List Message → Except Unit String)
      (writeRes : Except Unit Unit) (text : Option String),
      (onMessage est readRes aiRes writeRes (some uid) text).2 = Except.ok () := by
  refine ⟨rfl, rfl, rfl, rfl, ?_⟩
  intro readRes aiRes writeRes text
  cases readRes with
  | error e => rfl
  | ok history =>
    cases hai : aiRes (history ++ [⟨Role.user, orEmptyStr text⟩]) with
    | error e => simp [onMessage, hai]
    | ok ai => cases writeRes <;> simp [onMessage, hai]

/-- C6: authorization gate — when the sender's username matches no entry of
the allow-list, the middleware answers with the denial reply only: no store
read or write, no provider call, and no later handler runs, whatever the
update kind. -/
theorem C6_authorization_gate (users : List String) (c : Collab)
    (now : String) (kind : Incoming) (ctx : Ctx)
    (h : ∀ u ∈ users, ctx.username ≠ some u) :
    botHandle users c now kind ctx =
      ([Event.reply notAllowedText], Except.ok ()) := by
  have hown : isOwner users ctx.username = false := by
    simp only [isOwner, List.any_eq_false]
    intro u hu
    simpa using h u hu
  simp [botHandle, hown]

/-- C6 witness: an unauthorized username sending /start gets only the denial
reply. -/
theorem C6_authorization_gate_witness :
    botHandle [("alice")]
        ⟨fun s => s.length, Except.ok [], fun _ => Except.ok ("r"),
         Except.ok (), Except.ok (), Except.ok (("0"), ("1"))⟩
        ("now") Incoming.cmdStart ⟨some ("bob"), some 1, none⟩ =
      ([Event.reply notAllowedText], Except.ok ()) :=
  C6_authorization_gate _ _ _ _ _ (by decide)

/-- C7: webhook secret gate — whenever the request's secret query parameter
does not equal the configured shared secret (in particular when either side
is absent), `serve` answers with the 405 response and the bot pipeline is
never entered. -/
theorem C7_webhook_secret_gate (envSecret secretParam : Option String)
    (users : List String) (c : Collab) (now : String) (kind : Incoming)
    (ctx : Ctx) (h : ∀ s, envSecret = some s → secretParam ≠ some s) :
    serveRequest envSecret secretParam users c now kind ctx =
      ServeOutcome.rejected405 := by
  have hsec : secretAllowed secretParam envSecret = false := by
    cases he : envSecret with
    | none => cases secretParam <;> rfl
    | some s =>
      cases hp : secretParam with
      | none => rfl
      | some p =>
        have hne : p ≠ s := by
          intro hps
          exact h s (by rw [he]) (by rw [hp, hps])
        simpa [secretAllowed] using hne
  simp [serveRequest, hsec]

/-- C7 witness: a wrong secret parameter is rejected with 405. -/
theorem C7_webhook_secret_gate_witness :
    serveRequest (some ("expected")) (some ("wrong")) [("alice")]
        ⟨fun s => s.length, Except.ok [], fun _ => Except.ok ("r"),
         Except.ok (), Except.ok (), Except.ok (("0"), ("1"))⟩
        ("now") Incoming.cmdStart ⟨some ("alice"), some 1, none⟩ =
      ServeOutcome.rejected405 :=
  C7_webhook_secret_gate _ _ _ _ _ _ _
    (by intro s hs; cases hs; decide)

/-- C8 counterexample: startup succeeds although FUNCTION_SECRET is absent
from the environment — the third required value of the claim is never
checked at startup. -/
theorem C8_counterexample :
    (Env.mk (some [("alice")]) (some ("token123")) none).functionSecretVar =
      none ∧
    startup (Env.mk (some [("alice")]) (some ("token123")) none) =
      Except.ok ⟨[("alice")], ("token123")⟩ :=
  ⟨rfl, rfl⟩

/-- C8 (amended): startup aborts with a descriptive error on a missing or
empty bot token and then on a missing or empty allow-list, but it never
examines the shared webhook secret: with the other two values present,
startup succeeds whatever FUNCTION_SECRET holds, including nothing. -/
theorem C8_startup_checks :
    (∀ env : Env, env.botTokenVar.getD ("") = "" →
      startup env = Except.error ("Please specify the Telegram Bot Token.")) ∧
    (∀ env : Env, env.botTokenVar.getD ("") ≠ "" →
      env.usersVar.getD [] = [] →
      startup env =
        Except.error ("Please specify the users that have access to the bot.")) ∧
    (∀ (users : List String) (tok : String) (secret : Option String),
      users ≠ [] → tok ≠ "" →
      startup ⟨some users, some tok, secret⟩ = Except.ok ⟨users, tok⟩) := by
  refine ⟨?_, ?_, ?_⟩
  · intro env h
    simp [startup, h]
  · intro env h1 h2
    simp [startup, h1, h2]
  · intro users tok secret hu ht
    simp [startup, ht, hu]

/-- C8 witness: the three branches of the amended claim at concrete
environments. -/
theorem C8_startup_checks_witness :
    startup ⟨some [("alice")], none, some ("s")⟩ =
      Except.error ("Please specify the Telegram Bot Token.") ∧
    startup ⟨none, some ("tok"), none⟩ =
      Except.error ("Please specify the users that have access to the bot.") ∧
    startup ⟨some [("alice")], some ("tok"), none⟩ =
      Except.ok ⟨[("alice")], ("tok")⟩ :=
  ⟨C8_startup_checks.1 _ rfl,
   C8_startup_checks.2.1 _ (by decide) rfl,
   C8_startup_checks.2.2 [("alice")] ("tok") none (by decide) (by decide)⟩

/-- C10: with FUNCTION_SECRET unset the gate fails closed — every request is
rejected with the 405 response whatever secret parameter the caller
supplies, because a present-or-null query value never strictly equals the
undefined configured secret. -/
theorem C10_missing_secret_fails_closed (secretParam : Option String)
    (users : List String) (c : Collab) (now : String) (kind : Incoming)
    (ctx : Ctx) :
    serveRequest none secretParam users c now kind ctx =
      ServeOutcome.rejected405 := by
  cases secretParam <;> rfl

end TelegramBot
